import Mathlib

/-!
Verification of the trace-context propagation and multi-signal correlation
layer of the microsvc-practice demonstration mesh (api-gateway, user-service,
order-service, notification-service), as a shallow embedding in Lean 4.

Pure fragments of the Go handlers are translated into Lean functions; the
mutable in-memory stores become explicit state passing; the Prometheus
registry calls, span mutations and log statements become event lists returned
by each handler.  Behaviour supplied by the OpenTelemetry SDK (the W3C
propagator, span parenting) is not part of the repository's own sources and is
modelled from the specification where needed; such definitions are marked.
-/

set_option autoImplicit false

namespace Microsvc

/-- A trace context as carried across service boundaries: 128-bit trace id,
64-bit span id, sampling flag. -/
structure TraceContext where
  traceID : Nat
  spanID : Nat
  sampled : Bool
deriving DecidableEq, Repr

/-- Lower-case hex digit for a value below 16 (`0`–`9`, `a`–`f`). -/
def hexDigit (n : Nat) : Char :=
  if n < 10 then Char.ofNat (48 + n) else Char.ofNat (87 + n)

/-- Value of one hex character, `none` on a non-hex character. -/
def hexVal (c : Char) : Option Nat :=
  if '0' ≤ c ∧ c ≤ '9' then some (c.toNat - 48)
  else if 'a' ≤ c ∧ c ≤ 'f' then some (c.toNat - 87)
  else none

/-- Fixed-width big-endian hex rendering of a natural number. -/
def toHex : Nat → Nat → List Char
  | 0, _ => []
  | w + 1, v => toHex w (v / 16) ++ [hexDigit (v % 16)]

/-- Accumulating hex parser over a character list. -/
def fromHexAux : Nat → List Char → Option Nat
  | acc, [] => some acc
  | acc, c :: cs =>
    match hexVal c with
    | some d => fromHexAux (acc * 16 + d) cs
    | none => none

/-- Parse a hex character list, `none` if any character is not a hex digit. -/
def fromHex (cs : List Char) : Option Nat :=
  fromHexAux 0 cs

/-- Split a character list into the groups delimited by `-`. -/
def splitDash : List Char → List (List Char)
  | [] => [[]]
  | c :: rest =>
    if c = '-' then [] :: splitDash rest
    else
      match splitDash rest with
      | [] => [[c]]
      | g :: gs => (c :: g) :: gs

/-- Modelled from the spec: `Inject` of the configured propagator
(`propagation.TraceContext`, set by every service's `initTracer`), which the
repository only calls.  It writes the trace id, span id and sampling flag onto
the outbound carrier in a fixed hex encoding delimited by `-`. -/
def inject (ctx : TraceContext) : List Char :=
  ['0', '0'] ++ '-' :: (toHex 32 ctx.traceID ++ '-' :: (toHex 16 ctx.spanID
    ++ '-' :: (if ctx.sampled then ['0', '1'] else ['0', '0'])))

/-- Modelled from the spec: `Extract` of the configured propagator, which the
repository only calls.  It reads the inbound carrier's fixed-format header and
fails (`none`, the spec's `MissingContext`) when absent or malformed. -/
def extract (cs : List Char) : Option TraceContext :=
  match splitDash cs with
  | [ver, t, s, f] =>
    if ver.length = 2 ∧ t.length = 32 ∧ s.length = 16 ∧ f.length = 2 then
      match fromHex t, fromHex s, fromHex f with
      | some tid, some sid, some fl => some ⟨tid, sid, fl % 2 == 1⟩
      | _, _, _ => none
    else none
  | _ => none

/-- The inbound context of the spec's scenario: trace id
4bf92f3577b34da6a3ce929d0e0e4736, span id 00f067aa0ba902b7, sampled. -/
def scenarioCtx : TraceContext :=
  ⟨0x4bf92f3577b34da6a3ce929d0e0e4736, 0x00f067aa0ba902b7, true⟩

/-- The scenario's inbound propagation header. -/
def scenarioHeader : List Char :=
  inject scenarioCtx

/-- A span as handed to the exporter: its ids, parent link and name. -/
structure SpanRec where
  traceID : Nat
  spanID : Nat
  parentSpanID : Option Nat
  name : String
deriving DecidableEq, Repr

/-- Modelled from the spec: `tracer.Start` of the OTel SDK, which the
repository only calls (`simulateWork`, `callService`,
`simulateNotificationSending`).  The new span takes the parent context's trace
id, a freshly generated span id and the parent's span id as parent link; the
returned context carries the new span. -/
def startSpan (parent : TraceContext) (fresh : Nat) (name : String) :
    SpanRec × TraceContext :=
  (⟨parent.traceID, fresh, some parent.spanID, name⟩,
    ⟨parent.traceID, fresh, parent.sampled⟩)

/-- Modelled from the spec: the otelgin server middleware every service
installs before the logging middleware.  It extracts the inbound carrier and
opens the root span as a child of the extracted context, or opens a fresh root
(new trace id, no parent, sampled) when extraction fails. -/
def ingressSpan (header : List Char) (freshTrace freshRoot : Nat)
    (name : String) : SpanRec × TraceContext :=
  match extract header with
  | some c => startSpan c freshRoot name
  | none => (⟨freshTrace, freshRoot, none, name⟩, ⟨freshTrace, freshRoot, true⟩)

/-- The telemetry one request leaves behind: the root span opened at ingress,
the child spans the handler opened from the request context, and the trace id
the logging middleware stamps on the request's log record. -/
structure RequestTelemetry where
  rootSpan : SpanRec
  childSpans : List SpanRec
  logTraceID : Nat
deriving Repr

/-- One request through a service's middleware chain (Recovery → otelgin →
prometheus → logging → handler).  The root span is opened at ingress; the
handler opens one child span per local sub-operation, always from
`c.Request.Context()` (which holds the root span); `loggingMiddleware` reads
the trace id out of the span context of the request.  `childOps` lists the
handler's sub-operation names with the fresh span id drawn for each. -/
def handleRequest (header : List Char) (freshTrace freshRoot : Nat)
    (childOps : List (String × Nat)) : RequestTelemetry :=
  let ingress := ingressSpan header freshTrace freshRoot "server"
  { rootSpan := ingress.1
    childSpans := childOps.map (fun op => (startSpan ingress.2 op.2 op.1).1)
    logTraceID := ingress.2.traceID }

/-- One Prometheus registry operation: a counter increment or a histogram
observation, with the metric name and its label values. -/
inductive MetricEvent
  | inc (name : String) (labels : List String)
  | observe (name : String) (labels : List String) (value : Nat)
deriving DecidableEq, Repr

/-- Whether the event is a counter increment. -/
def MetricEvent.isInc : MetricEvent → Bool
  | .inc _ _ => true
  | _ => false

/-- Whether the event is a histogram observation. -/
def MetricEvent.isObserve : MetricEvent → Bool
  | .observe _ _ _ => true
  | _ => false

/-- `prometheusMiddleware` (textually identical in all four services): records
the entry instant `t0`, runs the handler, and on exit at instant `t1`
increments `http_requests_total` labeled with the method, the route template
and the numeric status code, and observes the elapsed time on
`http_request_duration_seconds` labeled with the method and route. -/
def prometheusMiddleware (method route : String) (status : Nat)
    (t0 t1 : Nat) : List MetricEvent :=
  [.inc "http_requests_total" [method, route, toString status],
    .observe "http_request_duration_seconds" [method, route] (t1 - t0)]

/-- The status class of an HTTP status code ("2xx", "4xx", ...): the label
value the spec says the request counter carries. -/
def statusClass (status : Nat) : String :=
  toString (status / 100) ++ "xx"

/-- One domain-operation counter increment: metric name, first label value
(operation, notification type or callee service), and outcome label value. -/
structure DomainMetric where
  metric : String
  op : String
  outcome : String
deriving DecidableEq, Repr

/-- `getUserByID` of the user service, reduced to its status code and domain
metric: `idParse` is the result of `strconv.Atoi` on the path parameter and
`userIDs` the key set of the in-memory user map. -/
def getUserByID (idParse : Option Nat) (userIDs : List Nat) :
    Nat × List DomainMetric :=
  match idParse with
  | none => (400, [⟨"user_operations_total", "get_user", "error"⟩])
  | some uid =>
    if uid ∈ userIDs then (200, [⟨"user_operations_total", "get_user", "success"⟩])
    else (404, [⟨"user_operations_total", "get_user", "not_found"⟩])

/-- `getAllUsers` of the user service: always succeeds. -/
def getAllUsers : Nat × List DomainMetric :=
  (200, [⟨"user_operations_total", "get_all_users", "success"⟩])

/-- `createUser` of the user service: `bindOk` is whether `ShouldBindJSON`
accepted the body. -/
def createUser (bindOk : Bool) : Nat × List DomainMetric :=
  if bindOk then (201, [⟨"user_operations_total", "create_user", "success"⟩])
  else (400, [⟨"user_operations_total", "create_user", "error"⟩])

/-- An order of the order service's in-memory slice. -/
structure Order where
  id : Nat
  userID : Nat
  product : String
  amount : Rat
  status : String
  createAt : String
deriving DecidableEq, Repr

/-- The order service's mutable state: the `orders` slice and `nextOrderID`. -/
structure OrderStore where
  orders : List Order
  nextOrderID : Nat
deriving DecidableEq, Repr

/-- The two seeded orders and the initial `nextOrderID = 3`. -/
def initialOrderStore : OrderStore :=
  ⟨[⟨1, 1, "笔记本电脑", 5999.99, "completed", "2023-01-01T10:00:00Z"⟩,
    ⟨2, 2, "智能手机", 2999.99, "processing", "2023-01-02T11:00:00Z"⟩], 3⟩

/-- The bound create-order request body of the order service. -/
structure OrderReq where
  userID : Nat
  product : String
  amount : Rat
deriving DecidableEq, Repr

/-- Response body of the order service's `createOrder`: the error object or
the created order with the decoded user-service body. -/
inductive OrderResp
  | errBody (msg : String)
  | created (order : Order) (user : String)
deriving DecidableEq, Repr

/-- `createOrder` of the order service: bind the JSON body, validate the user
through `callUserService`, then append the new order and bump `nextOrderID`.
`bindRes` is the result of `ShouldBindJSON`, `userCall` the result of the
user-service call (its decoded body on success), `now` the formatted creation
time.  Returns the new store, the status code with body, and the domain
metrics emitted. -/
def createOrder (st : OrderStore) (bindRes : Except String OrderReq)
    (userCall : Except String String) (now : String) :
    OrderStore × (Nat × OrderResp) × List DomainMetric :=
  match bindRes with
  | .error e =>
    (st, (400, .errBody e), [⟨"order_operations_total", "create_order", "error"⟩])
  | .ok req =>
    match userCall with
    | .error _ =>
      (st, (400, .errBody "用户验证失败"),
        [⟨"order_operations_total", "create_order", "error"⟩])
    | .ok user =>
      let newOrder : Order :=
        ⟨st.nextOrderID, req.userID, req.product, req.amount, "processing", now⟩
      (⟨st.orders ++ [newOrder], st.nextOrderID + 1⟩,
        (201, .created newOrder user),
        [⟨"order_operations_total", "create_order", "success"⟩])

/-- `getOrders` of the order service: always succeeds. -/
def getOrders : Nat × List DomainMetric :=
  (200, [⟨"order_operations_total", "get_orders", "success"⟩])

/-- `getOrderByID` of the order service, reduced to its status code and
domain metric. -/
def getOrderByID (idParse : Option Nat) (st : OrderStore) :
    Nat × List DomainMetric :=
  match idParse with
  | none => (400, [⟨"order_operations_total", "get_order", "error"⟩])
  | some oid =>
    if st.orders.any (fun o => o.id == oid) then
      (200, [⟨"order_operations_total", "get_order", "success"⟩])
    else (404, [⟨"order_operations_total", "get_order", "not_found"⟩])

/-- A notification as returned by the notification service. -/
structure Notification where
  id : Nat
  ntype : String
  message : String
  status : String
  sentAt : String
deriving DecidableEq, Repr

/-- A span mutation recorded by a handler: an attribute or a recorded error. -/
inductive SpanEvent
  | setAttr (key value : String)
  | recordError (msg : String)
deriving DecidableEq, Repr

/-- The fixed notification-type vocabulary of the notification service. -/
def notificationTypes : List String :=
  ["email", "sms", "push"]

/-- `simulateNotificationSending` of the notification service, reduced to the
child span's result events and the `notifications_sent_total` increment;
`fails` is the simulated five-percent failure draw. -/
def simulateNotificationSending (ntype : String) (fails : Bool) :
    List DomainMetric × List SpanEvent :=
  if fails then
    ([⟨"notifications_sent_total", ntype, "failed"⟩],
      [.setAttr "result" "failed", .recordError "notification sending failed"])
  else
    ([⟨"notifications_sent_total", ntype, "success"⟩],
      [.setAttr "result" "success"])

/-- `sendNotification`, the notification service's GET /notify handler: pick a
random type, simulate the send, then unconditionally answer 200 with a
notification whose status field is "sent".  `pick` is the random type index
draw, `fails` the simulated send-failure draw, `randOrder` the random order
number draw.  Returns the response (status code and body), the bumped id
counter, and the domain-metric and child-span events. -/
def sendNotification (nextID pick : Nat) (fails : Bool) (randOrder : Nat)
    (now : String) : (Nat × Notification) × Nat × List DomainMetric × List SpanEvent :=
  let ntype := notificationTypes.getD (pick % 3) "default"
  let sim := simulateNotificationSending ntype fails
  ((200, ⟨nextID, ntype,
      "您的订单已创建成功，订单号：" ++ toString (randOrder % 10000 + 1000),
      "sent", now⟩),
    nextID + 1, sim.1, sim.2)

/-- The callee services of the gateway's `callService` call sites. -/
def gatewayServices : List String :=
  ["user-service", "order-service", "notification-service"]

/-- The gateway's `callService` reduced to its `service_calls_total`
increment: on a failed round trip the error counter is bumped; a completed
response bumps success exactly for 2xx codes, error otherwise. -/
def callServiceMetrics (svc : String) (connOk : Bool) (status : Nat) :
    List DomainMetric :=
  if connOk then
    if 200 ≤ status ∧ status < 300 then [⟨"service_calls_total", svc, "success"⟩]
    else [⟨"service_calls_total", svc, "error"⟩]
  else [⟨"service_calls_total", svc, "error"⟩]

/-- The downstream hops of the gateway's composite create-order handler. -/
inductive Hop
  | orderHop
  | notificationHop
deriving DecidableEq, Repr

/-- Body of the gateway's create-order response: the error object of a failed
bind or failed required hop, or the composite object with the decoded
order-service result and the decoded notification-service result — `none`
when that call failed, since the Go `nil` map marshals to JSON `null`. -/
inductive GatewayBody
  | errBody (msg : String)
  | composite (order : String) (notification : Option String)
deriving DecidableEq, Repr

/-- The gateway's POST /api/v1/orders handler: bind the body; call the order
service (required); on its success call the notification service, whose
failure is only logged; answer 200 with both parts.  `bindRes`, `orderRes`
and `notifRes` are the results of `ShouldBindJSON` and of the two
`callService` calls.  Returns the response and the hops actually invoked, in
order. -/
def gatewayCreateOrder (bindRes : Except String Unit)
    (orderRes notifRes : Except String String) :
    (Nat × GatewayBody) × List Hop :=
  match bindRes with
  | .error e => ((400, .errBody e), [])
  | .ok _ =>
    match orderRes with
    | .error e => ((500, .errBody e), [.orderHop])
    | .ok order =>
      match notifRes with
      | .error _ => ((200, .composite order none), [.orderHop, .notificationHop])
      | .ok n => ((200, .composite order (some n)), [.orderHop, .notificationHop])

/-- A structured log record: message and ordered key/value fields. -/
structure LogRecord where
  msg : String
  fields : List (String × String)
deriving DecidableEq, Repr

/-- The static identity fields the logger demo's base logger carries
(`slog.New(jsonHandler).With(service_name, service_version)`). -/
def slogBaseFields : List (String × String) :=
  [("service_name", "my-go-filebeat-app"), ("service_version", "1.0.0")]

/-- The request-scoped fields the logger demo's /hello handler derives once
per request (`slog.Default().With(trace_id, request_id, http_method,
http_path)`). -/
def helloRequestFields (traceID requestID method path : String) :
    List (String × String) :=
  slogBaseFields ++ [("trace_id", traceID), ("request_id", requestID),
    ("http_method", method), ("http_path", path)]

/-- The log records the /hello handler emits for one request, all through the
request-scoped logger: the arrival record, then either the error record (the
simulated twenty-percent failure) or the success record. -/
def helloRequestLogs (traceID requestID method path : String) (fail : Bool)
    (processingMs : Nat) : List LogRecord :=
  let rf := helloRequestFields traceID requestID method path
  if fail then
    [⟨"Received request for /hello.", rf⟩,
      ⟨"Failed to process /hello request.",
        rf ++ [("error", "simulated internal error processing hello request"),
          ("processing_time_ms", toString processingMs)]⟩]
  else
    [⟨"Received request for /hello.", rf⟩,
      ⟨"Successfully processed /hello request.",
        rf ++ [("processing_time_ms", toString processingMs),
          ("response_payload", "Hello Gopher!")]⟩]

/-- The single JSON access-log line the downstream gin services'
`loggingMiddleware` writes per request (the formatter of the user-service,
order-service and notification-service, which hard-codes its own service
name; the trace id is read from the span context of the request). -/
def ginLogRecord (service time method uri : String) (status : Nat)
    (latency userAgent traceID : String) : LogRecord :=
  ⟨"", [("time", time), ("service", service), ("method", method),
    ("uri", uri), ("status", toString status), ("latency", latency),
    ("user_agent", userAgent), ("trace_id", traceID)]⟩

/-- The single JSON access-log line the api-gateway's `loggingMiddleware`
writes per request: same formatter shape as the downstream services' but
with no service field at all. -/
def gatewayLogRecord (time method uri : String) (status : Nat)
    (latency userAgent traceID : String) : LogRecord :=
  ⟨"", [("time", time), ("method", method), ("uri", uri),
    ("status", toString status), ("latency", latency),
    ("user_agent", userAgent), ("trace_id", traceID)]⟩

/-- The four service names of the mesh. -/
def services : List String :=
  ["api-gateway", "user-service", "order-service", "notification-service"]

/-- The GET /health handler each service registers: 200 with a status field
and the service's own name. -/
def healthHandler (service : String) : Nat × List (String × String) :=
  (200, [("status", "healthy"), ("service", service)])

/-- The metric families each service's `init` registers with
`prometheus.MustRegister`. -/
def registryOf (service : String) : List String :=
  if service = "user-service" then
    ["http_requests_total", "http_request_duration_seconds", "user_operations_total"]
  else if service = "order-service" then
    ["http_requests_total", "http_request_duration_seconds", "order_operations_total"]
  else if service = "notification-service" then
    ["http_requests_total", "http_request_duration_seconds", "notifications_sent_total"]
  else
    ["http_requests_total", "http_request_duration_seconds", "service_calls_total"]

/-- Modelled from the spec: the promhttp text exposition the GET /metrics
route serves, which the repository only wraps — one family block (here its
TYPE header line, leading hash omitted) per registered counter/histogram. -/
def renderMetricsPage (registry : List String) : List String :=
  registry.map (fun n => "TYPE " ++ n)

/-- Every place any of the four services increments a domain-operation
counter, with the branch inputs that select the outcome.  The notification
type and callee-service labels are closed over their fixed call-site
vocabularies by indexing. -/
inductive DomainCall
  | userGet (idParse : Option Nat) (userIDs : List Nat)
  | userGetAll
  | userCreate (bindOk : Bool)
  | orderList
  | orderCreate (st : OrderStore) (bindRes : Except String OrderReq)
      (userCall : Except String String) (now : String)
  | orderGet (idParse : Option Nat) (st : OrderStore)
  | notifySend (nextID pick : Nat) (fails : Bool) (randOrder : Nat) (now : String)
  | notifyDirect (tpick : Nat) (fails : Bool)
  | gatewayCall (spick : Nat) (connOk : Bool) (status : Nat)

/-- The domain metrics one handler invocation emits. -/
def domainMetricsOf : DomainCall → List DomainMetric
  | .userGet p ids => (getUserByID p ids).2
  | .userGetAll => getAllUsers.2
  | .userCreate b => (createUser b).2
  | .orderList => getOrders.2
  | .orderCreate st b u now => (createOrder st b u now).2.2
  | .orderGet p st => (getOrderByID p st).2
  | .notifySend n p f r now => (sendNotification n p f r now).2.2.1
  | .notifyDirect t f =>
    (simulateNotificationSending (notificationTypes.getD (t % 3) "email") f).1
  | .gatewayCall s c st => callServiceMetrics (gatewayServices.getD (s % 3) "user-service") c st

/-- The outcome values the spec's closed enumeration allows. -/
def specOutcomes : List String :=
  ["success", "error", "not_found"]

/-- The outcome values the services actually emit. -/
def emittedOutcomes : List String :=
  ["success", "error", "not_found", "failed"]

/-- The declared (metric name, first label) vocabulary. -/
def declaredOps : List (String × String) :=
  [("user_operations_total", "get_user"),
    ("user_operations_total", "get_all_users"),
    ("user_operations_total", "create_user"),
    ("order_operations_total", "get_orders"),
    ("order_operations_total", "create_order"),
    ("order_operations_total", "get_order"),
    ("notifications_sent_total", "email"),
    ("notifications_sent_total", "sms"),
    ("notifications_sent_total", "push"),
    ("service_calls_total", "user-service"),
    ("service_calls_total", "order-service"),
    ("service_calls_total", "notification-service")]

theorem hexVal_hexDigit {d : Nat} (hd : d < 16) : hexVal (hexDigit d) = some d := by
  interval_cases d <;> decide

theorem hexDigit_ne_dash {d : Nat} (hd : d < 16) : hexDigit d ≠ '-' := by
  interval_cases d <;> decide

theorem toHex_length (w v : Nat) : (toHex w v).length = w := by
  induction w generalizing v with
  | zero => rfl
  | succ w ih => simp [toHex, ih]

theorem toHex_mem {w v : Nat} {c : Char} (hc : c ∈ toHex w v) :
    ∃ d, d < 16 ∧ c = hexDigit d := by
  induction w generalizing v with
  | zero => simp [toHex] at hc
  | succ w ih =>
    simp only [toHex, List.mem_append, List.mem_singleton] at hc
    rcases hc with hc | hc
    · exact ih hc
    · exact ⟨v % 16, Nat.mod_lt _ (by norm_num), hc⟩

theorem toHex_ne_dash {w v : Nat} {c : Char} (hc : c ∈ toHex w v) : c ≠ '-' := by
  obtain ⟨d, hd, rfl⟩ := toHex_mem hc
  exact hexDigit_ne_dash hd

theorem splitDash_append_dash {a rest : List Char} (ha : ∀ c ∈ a, c ≠ '-') :
    splitDash (a ++ '-' :: rest) = a :: splitDash rest := by
  induction a with
  | nil => simp [splitDash]
  | cons c a ih =>
    have hc : c ≠ '-' := ha c (by simp)
    have ih' : splitDash (a.append ('-' :: rest)) = a :: splitDash rest :=
      ih (fun x hx => ha x (by simp [hx]))
    simp only [List.cons_append, splitDash, if_neg hc, ih']

theorem splitDash_no_dash {a : List Char} (ha : ∀ c ∈ a, c ≠ '-') :
    splitDash a = [a] := by
  induction a with
  | nil => rfl
  | cons c a ih =>
    have hc : c ≠ '-' := ha c (by simp)
    have ih' := ih (fun x hx => ha x (by simp [hx]))
    simp only [splitDash, if_neg hc, ih']

theorem fromHexAux_toHex_append {w : Nat} :
    ∀ {v acc : Nat} {rest : List Char}, v < 16 ^ w →
      fromHexAux acc (toHex w v ++ rest) = fromHexAux (acc * 16 ^ w + v) rest := by
  induction w with
  | zero =>
    intro v acc rest hv
    have : v = 0 := Nat.lt_one_iff.mp (by simpa using hv)
    simp [toHex, this]
  | succ w ih =>
    intro v acc rest hv
    have hdiv : v / 16 < 16 ^ w := by
      rw [Nat.div_lt_iff_lt_mul (by norm_num)]
      calc v < 16 ^ (w + 1) := hv
        _ = 16 ^ w * 16 := by ring
    have hmod : v % 16 < 16 := Nat.mod_lt _ (by norm_num)
    calc fromHexAux acc (toHex (w + 1) v ++ rest)
        = fromHexAux acc (toHex w (v / 16) ++ (hexDigit (v % 16) :: rest)) := by
          simp [toHex]
      _ = fromHexAux (acc * 16 ^ w + v / 16) (hexDigit (v % 16) :: rest) := ih hdiv
      _ = fromHexAux ((acc * 16 ^ w + v / 16) * 16 + v % 16) rest := by
          simp [fromHexAux, hexVal_hexDigit hmod]
      _ = fromHexAux (acc * 16 ^ (w + 1) + v) rest := by
          congr 1
          have := Nat.div_add_mod v 16
          ring_nf
          omega

theorem fromHex_toHex {w v : Nat} (hv : v < 16 ^ w) :
    fromHex (toHex w v) = some v := by
  have h := @fromHexAux_toHex_append w v 0 [] hv
  simpa [fromHex, fromHexAux] using h

theorem fromHex_01 : fromHex ['0', '1'] = some 1 := by decide

theorem fromHex_00 : fromHex ['0', '0'] = some 0 := by decide

/-- C2: injecting a trace context into an outbound carrier with the configured
propagator and extracting from that carrier yields back the identical trace
id, span id and sampling flag (round-trip law), for any context whose ids fit
the 128-bit trace-id and 64-bit span-id widths. -/
theorem C2_inject_extract_roundtrip (ctx : TraceContext)
    (ht : ctx.traceID < 2 ^ 128) (hs : ctx.spanID < 2 ^ 64) :
    extract (inject ctx) = some ctx := by
  have ht' : ctx.traceID < 16 ^ 32 := by
    calc ctx.traceID < 2 ^ 128 := ht
      _ = 16 ^ 32 := by norm_num
  have hs' : ctx.spanID < 16 ^ 16 := by
    calc ctx.spanID < 2 ^ 64 := hs
      _ = 16 ^ 16 := by norm_num
  cases ctx with
  | mk tid sid sampled =>
    cases sampled with
    | false =>
      have hsplit : splitDash (['0', '0'] ++ '-' :: (toHex 32 tid
          ++ '-' :: (toHex 16 sid ++ '-' :: ['0', '0']))) =
          [['0', '0'], toHex 32 tid, toHex 16 sid, ['0', '0']] := by
        rw [splitDash_append_dash (by decide),
          splitDash_append_dash (fun c hc => toHex_ne_dash hc),
          splitDash_append_dash (fun c hc => toHex_ne_dash hc),
          splitDash_no_dash (by decide)]
      simp only [List.cons_append, List.nil_append] at hsplit
      simp [extract, inject, hsplit, toHex_length, fromHex_toHex ht',
        fromHex_toHex hs', fromHex_00]
    | true =>
      have hsplit : splitDash (['0', '0'] ++ '-' :: (toHex 32 tid
          ++ '-' :: (toHex 16 sid ++ '-' :: ['0', '1']))) =
          [['0', '0'], toHex 32 tid, toHex 16 sid, ['0', '1']] := by
        rw [splitDash_append_dash (by decide),
          splitDash_append_dash (fun c hc => toHex_ne_dash hc),
          splitDash_append_dash (fun c hc => toHex_ne_dash hc),
          splitDash_no_dash (by decide)]
      simp only [List.cons_append, List.nil_append] at hsplit
      simp [extract, inject, hsplit, toHex_length, fromHex_toHex ht',
        fromHex_toHex hs', fromHex_01]

/-- C2 witness: the round-trip law applied to the spec scenario's context. -/
theorem C2_inject_extract_roundtrip_witness :
    (scenarioCtx.traceID < 2 ^ 128 ∧ scenarioCtx.spanID < 2 ^ 64) ∧
      extract (inject scenarioCtx) = some scenarioCtx :=
  ⟨⟨by norm_num [scenarioCtx], by norm_num [scenarioCtx]⟩,
    C2_inject_extract_roundtrip scenarioCtx (by norm_num [scenarioCtx])
      (by norm_num [scenarioCtx])⟩

/-- C1: every span opened while handling one request (the ingress root span
and every child started from the request context) and the trace id stamped on
the request's log record agree on one trace id; each child's parent is the
root span; and when the inbound header carries a valid context, the root
span's trace id is the header's trace id and its parent span id is the
header's span id. -/
theorem C1_single_trace_id (header : List Char) (freshTrace freshRoot : Nat)
    (childOps : List (String × Nat)) :
    (∀ s ∈ (handleRequest header freshTrace freshRoot childOps).childSpans,
      s.traceID = (handleRequest header freshTrace freshRoot childOps).rootSpan.traceID ∧
      s.parentSpanID = some (handleRequest header freshTrace freshRoot childOps).rootSpan.spanID) ∧
    (handleRequest header freshTrace freshRoot childOps).logTraceID =
      (handleRequest header freshTrace freshRoot childOps).rootSpan.traceID ∧
    ∀ hctx : TraceContext, extract header = some hctx →
      (handleRequest header freshTrace freshRoot childOps).rootSpan.traceID = hctx.traceID ∧
      (handleRequest header freshTrace freshRoot childOps).rootSpan.parentSpanID = some hctx.spanID := by
  cases hex : extract header with
  | none =>
    refine ⟨?_, ?_, ?_⟩
    · intro s hs
      simp only [handleRequest, ingressSpan, hex, List.mem_map] at hs ⊢
      obtain ⟨op, _, rfl⟩ := hs
      exact ⟨rfl, rfl⟩
    · simp [handleRequest, ingressSpan, hex]
    · intro hctx hc
      exact absurd hc (by simp)
  | some c =>
    refine ⟨?_, ?_, ?_⟩
    · intro s hs
      simp only [handleRequest, ingressSpan, hex, List.mem_map] at hs ⊢
      obtain ⟨op, _, rfl⟩ := hs
      exact ⟨rfl, rfl⟩
    · simp [handleRequest, ingressSpan, hex, startSpan]
    · intro hctx hc
      cases hc
      simp [handleRequest, ingressSpan, hex, startSpan]

/-- C1 witness: the scenario header propagated into a request with one child
span. -/
theorem C1_single_trace_id_witness :
    extract scenarioHeader = some scenarioCtx ∧
    (∀ s ∈ (handleRequest scenarioHeader 7 8 [("call-user-service", 9)]).childSpans,
      s.traceID = (handleRequest scenarioHeader 7 8 [("call-user-service", 9)]).rootSpan.traceID ∧
      s.parentSpanID = some (handleRequest scenarioHeader 7 8 [("call-user-service", 9)]).rootSpan.spanID) ∧
    (handleRequest scenarioHeader 7 8 [("call-user-service", 9)]).rootSpan.traceID = scenarioCtx.traceID ∧
    (handleRequest scenarioHeader 7 8 [("call-user-service", 9)]).rootSpan.parentSpanID = some scenarioCtx.spanID :=
  ⟨by decide,
    (C1_single_trace_id scenarioHeader 7 8 [("call-user-service", 9)]).1,
    ((C1_single_trace_id scenarioHeader 7 8 [("call-user-service", 9)]).2.2 scenarioCtx (by decide)).1,
    ((C1_single_trace_id scenarioHeader 7 8 [("call-user-service", 9)]).2.2 scenarioCtx (by decide)).2⟩

/-- C3: when the required order-service hop fails, the gateway's composite
create-order handler answers with the terminal 500 error body alone — no
partial success — and the optional notification hop is never invoked. -/
theorem C3_required_hop_aborts (e : String) (notifRes : Except String String) :
    gatewayCreateOrder (.ok ()) (.error e) notifRes =
      ((500, .errBody e), [Hop.orderHop]) ∧
    Hop.notificationHop ∉ (gatewayCreateOrder (.ok ()) (.error e) notifRes).2 := by
  constructor <;> simp [gatewayCreateOrder]

/-- C4 counterexample: with the order hop succeeding with O123 and the
notification hop failing, the gateway's response carries a null notification
part (the `nil` result marshals to JSON `null`), not one flagged "failed". -/
theorem C4_null_not_failed_counterexample :
    gatewayCreateOrder (.ok ()) (.ok "O123") (.error "connection refused") =
      ((200, .composite "O123" none), [Hop.orderHop, Hop.notificationHop]) ∧
    (gatewayCreateOrder (.ok ()) (.ok "O123") (.error "connection refused")).1.2 ≠
      .composite "O123" (some "failed") := by
  constructor <;> decide

/-- C4 (amended): when the order hop succeeds and the notification hop fails,
the gateway still answers 200 — overall success — with the order result of
the required hop, and the notification part of the body is null (the failed
hop's missing result), with no explicit failed marker. -/
theorem C4_optional_hop_degraded (order e : String) :
    gatewayCreateOrder (.ok ()) (.ok order) (.error e) =
      ((200, .composite order none), [Hop.orderHop, Hop.notificationHop]) := by
  simp [gatewayCreateOrder]

/-- C5 counterexample: for a 404 response the emitted request counter is
labeled with the numeric status code "404", not with the status class
"4xx" the claim names. -/
theorem C5_status_code_not_class_counterexample :
    MetricEvent.inc "http_requests_total" ["GET", "/users/:id", statusClass 404]
      ∉ prometheusMiddleware "GET" "/users/:id" 404 0 5 ∧
    MetricEvent.inc "http_requests_total" ["GET", "/users/:id", "404"]
      ∈ prometheusMiddleware "GET" "/users/:id" 404 0 5 := by
  constructor <;> decide

/-- C5 (amended): for every request through the metric middleware, on exit it
records exactly one counter increment, labeled with the method, the route and
the numeric status code, and exactly one latency observation labeled with the
method and route, whose value is the time elapsed since handler entry. -/
theorem C5_one_counter_one_observation (method route : String)
    (status t0 t1 : Nat) :
    ((prometheusMiddleware method route status t0 t1).countP MetricEvent.isInc = 1) ∧
    MetricEvent.inc "http_requests_total" [method, route, toString status] ∈
      prometheusMiddleware method route status t0 t1 ∧
    ((prometheusMiddleware method route status t0 t1).countP MetricEvent.isObserve = 1) ∧
    MetricEvent.observe "http_request_duration_seconds" [method, route] (t1 - t0) ∈
      prometheusMiddleware method route status t0 t1 := by
  refine ⟨rfl, by simp [prometheusMiddleware], rfl, by simp [prometheusMiddleware]⟩

/-- C6 counterexample: a failed notification send increments
notifications_sent_total with outcome "failed", which lies outside the
claim's enumeration success / error / not_found. -/
theorem C6_failed_outcome_counterexample :
    (⟨"notifications_sent_total", "email", "failed"⟩ : DomainMetric) ∈
      domainMetricsOf (.notifyDirect 0 true) ∧
    "failed" ∉ specOutcomes := by
  constructor <;> decide

/-- C6 (amended): every domain-operation metric any service emits carries an
outcome label from the closed enumeration success / error / not_found /
failed, and its metric name and first label come from the declared closed
vocabulary — never from request data. -/
theorem C6_label_vocabulary_closed (call : DomainCall) :
    ∀ m ∈ domainMetricsOf call,
      m.outcome ∈ emittedOutcomes ∧ (m.metric, m.op) ∈ declaredOps := by
  intro m hm
  cases call with
  | userGet p ids =>
    cases p with
    | none =>
      simp [domainMetricsOf, getUserByID] at hm
      subst hm; decide
    | some uid =>
      by_cases h : uid ∈ ids <;>
        simp [domainMetricsOf, getUserByID, h] at hm <;> subst hm <;> decide
  | userGetAll =>
    simp [domainMetricsOf, getAllUsers] at hm
    subst hm; decide
  | userCreate b =>
    cases b <;> simp [domainMetricsOf, createUser] at hm <;> subst hm <;> decide
  | orderList =>
    simp [domainMetricsOf, getOrders] at hm
    subst hm; decide
  | orderCreate st b u now =>
    cases b with
    | error e =>
      simp [domainMetricsOf, createOrder] at hm
      subst hm; decide
    | ok req =>
      cases u with
      | error e =>
        simp [domainMetricsOf, createOrder] at hm
        subst hm; decide
      | ok user =>
        simp [domainMetricsOf, createOrder] at hm
        subst hm; decide
  | orderGet p st =>
    cases p with
    | none =>
      simp [domainMetricsOf, getOrderByID] at hm
      subst hm; decide
    | some oid =>
      by_cases h : st.orders.any (fun o => o.id == oid) <;>
        simp [domainMetricsOf, getOrderByID, h] at hm <;> subst hm <;> decide
  | notifySend n p f r now =>
    have h3 : p % 3 = 0 ∨ p % 3 = 1 ∨ p % 3 = 2 := by omega
    cases f <;> rcases h3 with h | h | h <;>
      simp [domainMetricsOf, sendNotification, simulateNotificationSending,
        notificationTypes, List.getD, h] at hm <;>
      subst hm <;> decide
  | notifyDirect t f =>
    have h3 : t % 3 = 0 ∨ t % 3 = 1 ∨ t % 3 = 2 := by omega
    cases f <;> rcases h3 with h | h | h <;>
      simp [domainMetricsOf, simulateNotificationSending, notificationTypes,
        List.getD, h] at hm <;>
      subst hm <;> decide
  | gatewayCall s c st =>
    have h3 : s % 3 = 0 ∨ s % 3 = 1 ∨ s % 3 = 2 := by omega
    cases c <;> rcases h3 with h | h | h <;>
      by_cases hst : 200 ≤ st ∧ st < 300 <;>
      simp [domainMetricsOf, callServiceMetrics, gatewayServices,
        List.getD, h, hst] at hm <;>
      subst hm <;> decide

/-- C6 witness: the success outcome of one concrete notification send lies in
both closed vocabularies. -/
theorem C6_label_vocabulary_closed_witness :
    (⟨"notifications_sent_total", "email", "success"⟩ : DomainMetric) ∈
      domainMetricsOf (.notifyDirect 0 false) ∧
    ("success" ∈ emittedOutcomes ∧
      ("notifications_sent_total", "email") ∈ declaredOps) :=
  ⟨by decide,
    C6_label_vocabulary_closed (.notifyDirect 0 false)
      ⟨"notifications_sent_total", "email", "success"⟩ (by decide)⟩

/-- C7 counterexample: the user-service access-log record of a request
carries a trace_id but no request_id field at all. -/
theorem C7_no_request_id_counterexample :
    "request_id" ∉ (ginLogRecord "user-service" "2023-01-01T00:00:00Z" "GET"
        "/users/1" 200 "1ms" "curl/8.0"
        "4bf92f3577b34da6a3ce929d0e0e4736").fields.map Prod.fst ∧
    ("trace_id", "4bf92f3577b34da6a3ce929d0e0e4736") ∈
      (ginLogRecord "user-service" "2023-01-01T00:00:00Z" "GET" "/users/1" 200
        "1ms" "curl/8.0" "4bf92f3577b34da6a3ce929d0e0e4736").fields := by
  constructor <;> decide

/-- C7 (amended): every record the slog-based logger service emits for one
request carries the request's trace id, request id and the static service
identity verbatim from the request-scoped logger — identical across the
request's records; the gin services' single per-request access-log record
carries the trace id but no request id, the three downstream services'
records also carry their own service name, while the api-gateway's record
carries no service field either. -/
theorem C7_request_scoped_fields (traceID requestID method path : String)
    (fail : Bool) (ms : Nat) (service time uri latency userAgent gtid : String)
    (status : Nat) :
    (∀ r ∈ helloRequestLogs traceID requestID method path fail ms,
      ("trace_id", traceID) ∈ r.fields ∧
      ("request_id", requestID) ∈ r.fields ∧
      ("service_name", "my-go-filebeat-app") ∈ r.fields ∧
      ("service_version", "1.0.0") ∈ r.fields) ∧
    ("trace_id", gtid) ∈
      (ginLogRecord service time method uri status latency userAgent gtid).fields ∧
    ("service", service) ∈
      (ginLogRecord service time method uri status latency userAgent gtid).fields ∧
    "request_id" ∉
      (ginLogRecord service time method uri status latency userAgent gtid).fields.map Prod.fst ∧
    ("trace_id", gtid) ∈
      (gatewayLogRecord time method uri status latency userAgent gtid).fields ∧
    "service" ∉
      (gatewayLogRecord time method uri status latency userAgent gtid).fields.map Prod.fst ∧
    "request_id" ∉
      (gatewayLogRecord time method uri status latency userAgent gtid).fields.map Prod.fst := by
  refine ⟨?_, by simp [ginLogRecord], by simp [ginLogRecord], ?_,
    by simp [gatewayLogRecord], ?_, ?_⟩
  · intro r hr
    cases fail <;> simp [helloRequestLogs] at hr <;>
      rcases hr with h | h <;> subst h <;>
      simp [helloRequestFields, slogBaseFields]
  · simp only [ginLogRecord, List.map_cons, List.map_nil]
    decide
  · simp only [gatewayLogRecord, List.map_cons, List.map_nil]
    decide
  · simp only [gatewayLogRecord, List.map_cons, List.map_nil]
    decide

/-- C7 witness: the arrival record of one concrete failed /hello request. -/
theorem C7_request_scoped_fields_witness :
    (⟨"Received request for /hello.",
        helloRequestFields "trace-abc" "req-1" "GET" "/hello"⟩ : LogRecord) ∈
      helloRequestLogs "trace-abc" "req-1" "GET" "/hello" true 42 ∧
    ("trace_id", "trace-abc") ∈ (⟨"Received request for /hello.",
        helloRequestFields "trace-abc" "req-1" "GET" "/hello"⟩ : LogRecord).fields :=
  ⟨by decide,
    ((C7_request_scoped_fields "trace-abc" "req-1" "GET" "/hello" true 42
        "user-service" "t" "/x" "1ms" "ua" "tid" 200).1
      ⟨"Received request for /hello.",
        helloRequestFields "trace-abc" "req-1" "GET" "/hello"⟩ (by decide)).1⟩

/-- C8: every service's GET /health answers 200 with a status field and the
service's own name, and its GET /metrics page carries one family block per
registered counter/histogram of its registry. -/
theorem C8_health_and_metrics (service : String) (_hs : service ∈ services) :
    (healthHandler service).1 = 200 ∧
    ("status", "healthy") ∈ (healthHandler service).2 ∧
    ("service", service) ∈ (healthHandler service).2 ∧
    ∀ fam ∈ registryOf service,
      ("TYPE " ++ fam) ∈ renderMetricsPage (registryOf service) := by
  refine ⟨rfl, by simp [healthHandler], by simp [healthHandler], ?_⟩
  intro fam hf
  simpa [renderMetricsPage] using
    List.mem_map_of_mem (fun n => "TYPE " ++ n) hf

/-- C8 witness: the user service's health body and its registered domain
counter's exposition block. -/
theorem C8_health_and_metrics_witness :
    ("user-service" ∈ services ∧
      "user_operations_total" ∈ registryOf "user-service") ∧
    ("service", "user-service") ∈ (healthHandler "user-service").2 ∧
    ("TYPE " ++ "user_operations_total") ∈
      renderMetricsPage (registryOf "user-service") :=
  ⟨⟨by decide, by decide⟩,
    (C8_health_and_metrics "user-service" (by decide)).2.2.1,
    (C8_health_and_metrics "user-service" (by decide)).2.2.2
      "user_operations_total" (by decide)⟩

/-- C9: when the user-validation call fails, the order service's
`createOrder` answers 400 with the error body and leaves the store
untouched — no order appended, `nextOrderID` not bumped. -/
theorem C9_store_unchanged_on_user_failure (st : OrderStore) (req : OrderReq)
    (e now : String) :
    (createOrder st (.ok req) (.error e) now).1 = st ∧
    (createOrder st (.ok req) (.error e) now).2.1 =
      (400, .errBody "用户验证失败") :=
  ⟨rfl, rfl⟩

/-- C10: GET /notify always answers 200 with a body whose status field is
"sent"; the response does not depend on the simulated send-failure draw, and
on a failed draw the failure shows up only as the recorded span error and the
notifications_sent_total increment labeled "failed". -/
theorem C10_notify_always_sent (nextID pick randOrder : Nat) (now : String)
    (fails : Bool) :
    (sendNotification nextID pick fails randOrder now).1.1 = 200 ∧
    (sendNotification nextID pick fails randOrder now).1.2.status = "sent" ∧
    (sendNotification nextID pick true randOrder now).1 =
      (sendNotification nextID pick false randOrder now).1 ∧
    (⟨"notifications_sent_total", notificationTypes.getD (pick % 3) "default",
        "failed"⟩ : DomainMetric) ∈
      (sendNotification nextID pick true randOrder now).2.2.1 ∧
    SpanEvent.recordError "notification sending failed" ∈
      (sendNotification nextID pick true randOrder now).2.2.2 := by
  cases fails <;>
    simp [sendNotification, simulateNotificationSending]

end Microsvc

